import Mathlib

/-!
Verification of the Jobly backend's query-building subsystem: the partial-update
SET-clause builder (`sqlForPartialUpdate` in helpers/sql.js) and the two dynamic
filter-query builders (`Company.filter` in models/company.js and `Job.filter`
in models/job.js).

The JavaScript source is shallowly embedded:
an update payload (a JS object in insertion order) is a `List (String × α)`;
the camel-case→snake-case field-name map is a `List (String × String)` with
JS-object lookup semantics; optional filter criteria are `Option`-valued
fields, with JS truthiness made explicit (`""` and `0` are falsy); the
database is a parameter `dbq : String → List QVal → List Row` standing for
`db.query`; thrown `BadRequestError` / `NotFoundError` become an `Except Err`
result. Template-literal whitespace inside the SQL skeleton strings is
normalized to single spaces (the source spreads the SELECT list over several
indented lines); the concatenation structure `first ++ " " ++ middle ++ " " ++
last` is kept exactly.
-/

namespace Jobly

/-- Errors thrown by the data-access layer: `BadRequestError` and
`NotFoundError` from expressError.js, each carrying its message. -/
inductive Err where
  | badRequest (msg : String)
  | notFound (msg : String)
deriving DecidableEq, Repr

/-- A value bound into a parameterized query: the `valueArr` entries are
either strings (wrapped search substrings) or numbers. -/
inductive QVal where
  | vstr (s : String)
  | vint (n : Int)
deriving DecidableEq, Repr

/-- JS-object property lookup on the field-name map: `jsToSql[colName]`. -/
def lookupMap (m : List (String × String)) (k : String) : Option String :=
  (m.find? (fun p => p.1 = k)).map Prod.snd

/-- JS `a || b` where `a` is an optional string: `undefined` and the empty
string are falsy and fall through to `b`. -/
def jsOr (v : Option String) (fallback : String) : String :=
  match v with
  | some s => if s = "" then fallback else s
  | none => fallback

/-- One SET fragment of sqlForPartialUpdate:
the template literal `"$\x7bjsToSql[colName] || colName\x7d"=$$\x7bidx + 1\x7d`
from helpers/sql.js, for the key at 0-based index `idx`. -/
def colFragment (jsToSql : List (String × String)) (colName : String) (idx : Nat) : String :=
  "\"" ++ jsOr (lookupMap jsToSql colName) colName ++ "\"=$" ++ toString (idx + 1)

/-- The `cols` array of sqlForPartialUpdate: `keys.map((colName, idx) => ...)`. -/
def sqlCols {α : Type} (dataToUpdate : List (String × α)) (jsToSql : List (String × String)) :
    List String :=
  dataToUpdate.mapIdx (fun idx kv => colFragment jsToSql kv.1 idx)

/-- sqlForPartialUpdate from helpers/sql.js: throws `BadRequestError("No data")`
when the payload has no keys, otherwise returns the joined `setCols` string and
the payload's values in insertion order. -/
def sqlForPartialUpdate {α : Type} (dataToUpdate : List (String × α))
    (jsToSql : List (String × String)) : Except Err (String × List α) :=
  if dataToUpdate.length = 0 then .error (.badRequest "No data")
  else .ok (String.intercalate ", " (sqlCols dataToUpdate jsToSql),
            dataToUpdate.map Prod.snd)

/-- Company filter criteria `query` destructured as
`const (name, minEmployees, maxEmployees) = query`. -/
structure CompanyQuery where
  name : Option String
  minEmployees : Option Int
  maxEmployees : Option Int

/-- Job filter criteria `query` destructured as
`const (title, minSalary, hasEquity) = query`. -/
structure JobQuery where
  title : Option String
  minSalary : Option Int
  hasEquity : Option Bool

/-- JS truthiness of an optional string criterion: absent and `""` are falsy. -/
def truthyStr : Option String → Bool
  | none => false
  | some s => s != ""

/-- JS truthiness of an optional numeric criterion: absent and `0` are falsy. -/
def truthyInt : Option Int → Bool
  | none => false
  | some n => n != 0

/-- One step of the filter builders' shared shape:
`valueArr.push(v); indexes.x = valueArr.length;
middlePartOfQueryArr.push(frag(indexes.x))` — the fragment's placeholder index
is the length of the value array immediately after the push. -/
def addClause (st : List String × List QVal) (frag : Nat → String) (v : QVal) :
    List String × List QVal :=
  let vals := st.2 ++ [v]
  (st.1 ++ [frag vals.length], vals)

/-- The `middlePartOfQueryArr` and `valueArr` assembled by Company.filter, in
source order: name, then minEmployees, then maxEmployees, each guarded by JS
truthiness of the criterion. -/
def companyBuild (q : CompanyQuery) : List String × List QVal :=
  let st0 : List String × List QVal := ([], [])
  let st1 :=
    if truthyStr q.name then
      addClause st0 (fun k => "name ILIKE $" ++ toString k)
        (QVal.vstr ("%" ++ q.name.getD "" ++ "%"))
    else st0
  let st2 :=
    if truthyInt q.minEmployees then
      addClause st1 (fun k => "num_employees >= $" ++ toString k)
        (QVal.vint (q.minEmployees.getD 0))
    else st1
  let st3 :=
    if truthyInt q.maxEmployees then
      addClause st2 (fun k => "num_employees <= $" ++ toString k)
        (QVal.vint (q.maxEmployees.getD 0))
    else st2
  st3

/-- The `firstPartOfQuery` template literal of Company.filter, whitespace
normalized; note it ends in `WHERE`. -/
def companyFirstPart : String :=
  "SELECT handle, name, description, num_employees AS \"numEmployees\", logo_url AS \"logoUrl\" FROM companies WHERE"

/-- The `lastPartOfQuery` of Company.filter. -/
def companyLastPart : String := "ORDER BY name"

/-- The SQL text Company.filter passes to `db.query`:
the template literal composing first part, joined middle, last part,
separated by single spaces. -/
def companyQueryText (q : CompanyQuery) : String :=
  companyFirstPart ++ " " ++ String.intercalate " AND " (companyBuild q).1 ++ " " ++
    companyLastPart

/-- The upfront cross-field check `if (minEmployees > maxEmployees)` of
Company.filter; in JS a comparison with `undefined` is false, so it only
fires when both bounds are present. -/
def companyThrowCheck (q : CompanyQuery) : Bool :=
  match q.minEmployees, q.maxEmployees with
  | some a, some b => a > b
  | _, _ => false

/-- Company.filter from models/company.js: validate the employee bounds, build
the clause and values, run the query, and throw `NotFoundError` on an empty
result set. The database is the parameter `dbq`. -/
def companyFilter {Row : Type} (dbq : String → List QVal → List Row)
    (q : CompanyQuery) : Except Err (List Row) :=
  if companyThrowCheck q then
    .error (.badRequest
      "Maximum employees number must be larger than minimum employees number.")
  else
    let rows := dbq (companyQueryText q) (companyBuild q).2
    if rows.length = 0 then
      .error (.notFound "No company found matching your search criteria")
    else .ok rows

/-- The `middlePartOfQueryArr` and `valueArr` assembled by Job.filter, in
source order: title, then minSalary, then the special `hasEquity === true`
case that pushes the literal fragment `equity > 0` with no value. -/
def jobBuild (q : JobQuery) : List String × List QVal :=
  let st0 : List String × List QVal := ([], [])
  let st1 :=
    if truthyStr q.title then
      addClause st0 (fun k => "title ILIKE $" ++ toString k)
        (QVal.vstr ("%" ++ q.title.getD "" ++ "%"))
    else st0
  let st2 :=
    if truthyInt q.minSalary then
      addClause st1 (fun k => "salary > $" ++ toString k)
        (QVal.vint (q.minSalary.getD 0))
    else st1
  let st3 :=
    if q.hasEquity = some true then (st2.1 ++ ["equity > 0"], st2.2)
    else st2
  st3

/-- The `firstPartOfQuery` of Job.filter (single line in the source);
note it ends in `WHERE`. -/
def jobFirstPart : String :=
  "SELECT id, title, salary, equity, company_handle AS \"companyHandle\" FROM jobs WHERE"

/-- The `lastPartOfQuery` of Job.filter. -/
def jobLastPart : String := "ORDER BY title"

/-- The SQL text Job.filter passes to `db.query`. -/
def jobQueryText (q : JobQuery) : String :=
  jobFirstPart ++ " " ++ String.intercalate " AND " (jobBuild q).1 ++ " " ++ jobLastPart

/-- Job.filter from models/job.js: build the clause and values, run the query,
and throw `NotFoundError` on an empty result set. -/
def jobFilter {Row : Type} (dbq : String → List QVal → List Row)
    (q : JobQuery) : Except Err (List Row) :=
  let rows := dbq (jobQueryText q) (jobBuild q).2
  if rows.length = 0 then
    .error (.notFound "No jobs found matching your search criteria")
  else .ok rows

/-- Decide whether a character is an ASCII decimal digit. -/
def isDigitCh (c : Char) : Bool := '0' ≤ c && c ≤ '9'

/-- Numeric value of a list of decimal digit characters. -/
def digitsVal (cs : List Char) : Nat :=
  cs.foldl (fun acc c => acc * 10 + (c.toNat - Char.toNat '0')) 0

/-- Parse a nonempty all-digit character list as a number. -/
def parseDigits (cs : List Char) : Option Nat :=
  if cs ≠ [] ∧ cs.all isDigitCh then some (digitsVal cs) else none

/-- Characters strictly after the last `$` of a character list, or `none`
when no `$` occurs. -/
def afterLastDollar : List Char → Option (List Char)
  | [] => none
  | c :: rest =>
    match afterLastDollar rest with
    | some r => some r
    | none => if c = '$' then some rest else none

/-- The positional-placeholder index a predicate fragment references: the
decimal number following the fragment's last `$`, when the fragment's tail
after that `$` is all digits. The builders' fragments carry their placeholder
at the very end, so this extracts it; `equity > 0` has none. -/
def lastPlaceholder (s : String) : Option Nat :=
  (afterLastDollar s.data).bind parseDigits

/-- A clause string ends with the positional placeholder `$k`: its characters
are some prefix followed by `$` and the decimal rendering of `k`. -/
def endsWithPlaceholder (s : String) (k : Nat) : Prop :=
  ∃ pre : List Char, s.data = pre ++ '$' :: (toString k).data

/-- Helper: a list has length zero iff it is empty. -/
theorem length_eq_zero_iff_nil {α : Type} (l : List α) : l.length = 0 ↔ l = [] :=
  List.length_eq_zero

/-- C5: calling sqlForPartialUpdate with an empty payload fails with the
BadRequest "No data" error for every field-name map, and with any payload
having at least one key it succeeds (so it never raises that error). -/
theorem sqlForPartialUpdate_no_data (α : Type) (P : List (String × α))
    (M M0 : List (String × String)) (hP : P ≠ []) :
    sqlForPartialUpdate ([] : List (String × α)) M0 = .error (.badRequest "No data")
    ∧ sqlForPartialUpdate P M =
        .ok (String.intercalate ", " (sqlCols P M), P.map Prod.snd) := by
  constructor
  · rfl
  · unfold sqlForPartialUpdate
    rw [if_neg]
    simpa [length_eq_zero_iff_nil] using hP

/-- Witness for C5 at the payload [("a", 1)] and two concrete maps. -/
theorem sqlForPartialUpdate_no_data_witness :
    ([("a", (1 : Int))] : List (String × Int)) ≠ []
    ∧ sqlForPartialUpdate ([] : List (String × Int)) [("b", "c")] =
        .error (.badRequest "No data")
    ∧ sqlForPartialUpdate [("a", (1 : Int))] [] = .ok ("\"a\"=$1", [1]) := by
  have h := sqlForPartialUpdate_no_data Int [("a", (1 : Int))] [] [("b", "c")]
    (by decide)
  refine ⟨by decide, h.1, ?_⟩
  rw [h.2]
  rfl

/-- C3: when both employee bounds are supplied and the minimum exceeds the
maximum, Company.filter fails with the BadRequest validation error; the result
is this error for every database function `dbq`, so no query result is ever
consulted and nothing else is assembled. -/
theorem companyFilter_minGtMax_badRequest (Row : Type)
    (dbq : String → List QVal → List Row) (q : CompanyQuery) (a b : Int)
    (hmin : q.minEmployees = some a) (hmax : q.maxEmployees = some b)
    (hab : a > b) :
    companyFilter dbq q =
      .error (.badRequest
        "Maximum employees number must be larger than minimum employees number.") := by
  have hc : companyThrowCheck q = true := by
    unfold companyThrowCheck
    rw [hmin, hmax]
    simpa using hab
  simp [companyFilter, hc]

/-- Witness for C3 at minEmployees = 10, maxEmployees = 5. -/
theorem companyFilter_minGtMax_badRequest_witness :
    companyFilter (fun _ _ => ([] : List Unit)) ⟨none, some 10, some 5⟩ =
      .error (.badRequest
        "Maximum employees number must be larger than minimum employees number.") :=
  companyFilter_minGtMax_badRequest Unit (fun _ _ => []) ⟨none, some 10, some 5⟩
    10 5 rfl rfl (by decide)

/-- C8: for both filter operations, once the query has run, an empty result
set is turned into a NotFoundError and a non-empty result set is returned
unchanged. -/
theorem filter_empty_result_notFound :
    (∀ (Row : Type) (dbq : String → List QVal → List Row) (q : CompanyQuery),
      companyThrowCheck q = false →
      (dbq (companyQueryText q) (companyBuild q).2 = [] →
        companyFilter dbq q =
          .error (.notFound "No company found matching your search criteria"))
      ∧ (dbq (companyQueryText q) (companyBuild q).2 ≠ [] →
        companyFilter dbq q = .ok (dbq (companyQueryText q) (companyBuild q).2)))
    ∧ (∀ (Row : Type) (dbq : String → List QVal → List Row) (q : JobQuery),
      (dbq (jobQueryText q) (jobBuild q).2 = [] →
        jobFilter dbq q =
          .error (.notFound "No jobs found matching your search criteria"))
      ∧ (dbq (jobQueryText q) (jobBuild q).2 ≠ [] →
        jobFilter dbq q = .ok (dbq (jobQueryText q) (jobBuild q).2))) := by
  constructor
  · intro Row dbq q hq
    constructor
    · intro he
      simp [companyFilter, hq, he]
    · intro hne
      simp [companyFilter, hq, length_eq_zero_iff_nil, hne]
  · intro Row dbq q
    constructor
    · intro he
      simp [jobFilter, he]
    · intro hne
      simp [jobFilter, length_eq_zero_iff_nil, hne]

/-- Witness for C8: a database returning no rows yields NotFoundError, one
returning a row yields that row, for a concrete company query and a concrete
job query. -/
theorem filter_empty_result_notFound_witness :
    companyFilter (fun _ _ => ([] : List Unit)) ⟨some "a", none, none⟩ =
      .error (.notFound "No company found matching your search criteria")
    ∧ jobFilter (fun _ _ => [(0 : Nat)]) ⟨some "a", none, none⟩ = .ok [0] := by
  constructor
  · exact (filter_empty_result_notFound.1 Unit (fun _ _ => [])
      ⟨some "a", none, none⟩ rfl).1 rfl
  · exact (filter_empty_result_notFound.2 Nat (fun _ _ => [(0 : Nat)])
      ⟨some "a", none, none⟩).2 (by decide)

/-- C2 (refuting the guarded-composition claim): with zero recognized
criteria both builders produce an empty fragment list and empty value list,
and the composed SQL text that reaches `db.query` still contains the skeleton's
trailing `WHERE` immediately followed by `ORDER BY` (two spaces, no
predicate) — a dangling WHERE, not valid SQL. The last conjunct shows the
dangling text is in fact passed to the database function unguarded. -/
theorem zero_criteria_dangling_where :
    companyBuild ⟨none, none, none⟩ = ([], [])
    ∧ companyQueryText ⟨none, none, none⟩ =
        "SELECT handle, name, description, num_employees AS \"numEmployees\", logo_url AS \"logoUrl\" FROM companies WHERE  ORDER BY name"
    ∧ jobBuild ⟨none, none, none⟩ = ([], [])
    ∧ jobQueryText ⟨none, none, none⟩ =
        "SELECT id, title, salary, equity, company_handle AS \"companyHandle\" FROM jobs WHERE  ORDER BY title"
    ∧ companyFilter (fun t _ => [t]) ⟨none, none, none⟩ =
        .ok ["SELECT handle, name, description, num_employees AS \"numEmployees\", logo_url AS \"logoUrl\" FROM companies WHERE  ORDER BY name"] := by
  refine ⟨by decide, rfl, by decide, rfl, rfl⟩

/-- C4: when hasEquity is exactly true, Job.filter appends the literal
fragment `equity > 0` after the fragments built from the other criteria and
appends nothing to the value list; when hasEquity is false or absent the
build is identical to the one with no equity criterion at all; and the
equity fragment carries no positional placeholder. -/
theorem jobBuild_hasEquity (q : JobQuery) :
    (q.hasEquity = some true →
      (jobBuild q).1 = (jobBuild ⟨q.title, q.minSalary, none⟩).1 ++ ["equity > 0"]
      ∧ (jobBuild q).2 = (jobBuild ⟨q.title, q.minSalary, none⟩).2)
    ∧ (q.hasEquity ≠ some true → jobBuild q = jobBuild ⟨q.title, q.minSalary, none⟩)
    ∧ lastPlaceholder "equity > 0" = none := by
  obtain ⟨t, s, e⟩ := q
  refine ⟨?_, ?_, by decide⟩
  · intro h
    subst h
    simp [jobBuild]
  · intro h
    simp [jobBuild, h]

/-- Witness for C4 at hasEquity = true and at hasEquity = false. -/
theorem jobBuild_hasEquity_witness :
    (jobBuild ⟨none, none, some true⟩).1 = ["equity > 0"]
    ∧ (jobBuild ⟨none, none, some true⟩).2 = []
    ∧ jobBuild ⟨none, none, some false⟩ = jobBuild ⟨none, none, none⟩ := by
  have h1 := (jobBuild_hasEquity ⟨none, none, some true⟩).1 rfl
  have h2 := (jobBuild_hasEquity ⟨none, none, some false⟩).2.1 (by decide)
  exact ⟨by rw [h1.1]; rfl, by rw [h1.2]; rfl, h2⟩

/-- C7: a criterion supplied with a falsy value (empty-string name or title,
zero minEmployees, maxEmployees or minSalary) is treated exactly as an absent
criterion by both filter builders: no fragment is emitted and no value is
appended for it. -/
theorem filter_falsy_criterion_absent :
    (∀ q : CompanyQuery,
      (q.name = some "" →
        companyBuild q = companyBuild ⟨none, q.minEmployees, q.maxEmployees⟩)
      ∧ (q.minEmployees = some 0 →
        companyBuild q = companyBuild ⟨q.name, none, q.maxEmployees⟩)
      ∧ (q.maxEmployees = some 0 →
        companyBuild q = companyBuild ⟨q.name, q.minEmployees, none⟩))
    ∧ (∀ q : JobQuery,
      (q.title = some "" →
        jobBuild q = jobBuild ⟨none, q.minSalary, q.hasEquity⟩)
      ∧ (q.minSalary = some 0 →
        jobBuild q = jobBuild ⟨q.title, none, q.hasEquity⟩)) := by
  constructor
  · intro ⟨n, mn, mx⟩
    refine ⟨?_, ?_, ?_⟩ <;> intro h <;> subst h <;> simp [companyBuild, truthyStr, truthyInt]
  · intro ⟨t, s, e⟩
    refine ⟨?_, ?_⟩ <;> intro h <;> subst h <;> simp [jobBuild, truthyStr, truthyInt]

/-- Witness for C7 at explicit falsy criteria. -/
theorem filter_falsy_criterion_absent_witness :
    companyBuild ⟨some "", some 0, none⟩ = companyBuild ⟨none, some 0, none⟩
    ∧ jobBuild ⟨none, some 0, some true⟩ = jobBuild ⟨none, none, some true⟩ := by
  constructor
  · exact (filter_falsy_criterion_absent.1 ⟨some "", some 0, none⟩).1 rfl
  · exact (filter_falsy_criterion_absent.2 ⟨none, some 0, some true⟩).2 rfl

/-- C10: a non-empty company name criterion is bound as the wildcard-wrapped
value at position 1 of the value list while the emitted clause fragment is the
constant text `name ILIKE $1` — independent of the user substring, which is
therefore never interpolated into the clause text; likewise the job title
criterion with `title ILIKE $1`; and concretely `filter(name:"tech")` binds
`%tech%` at position 1. -/
theorem filter_substring_binding :
    (∀ (q : CompanyQuery) (s : String), q.name = some s → s ≠ "" →
      ∃ restM restV, companyBuild q =
        ("name ILIKE $1" :: restM, QVal.vstr ("%" ++ s ++ "%") :: restV))
    ∧ (∀ (q : JobQuery) (s : String), q.title = some s → s ≠ "" →
      ∃ restM restV, jobBuild q =
        ("title ILIKE $1" :: restM, QVal.vstr ("%" ++ s ++ "%") :: restV))
    ∧ companyBuild ⟨some "tech", none, none⟩ =
        (["name ILIKE $1"], [QVal.vstr "%tech%"]) := by
  refine ⟨?_, ?_, by decide⟩
  · rintro ⟨n, mn, mx⟩ s h hs
    simp only at h
    subst h
    have ht : truthyStr (some s) = true := by simpa [truthyStr] using hs
    cases hmn : truthyInt mn <;> cases hmx : truthyInt mx <;>
      (simp [companyBuild, addClause, ht, hmn, hmx]; rfl)
  · rintro ⟨t, ms, e⟩ s h hs
    simp only at h
    subst h
    have ht : truthyStr (some s) = true := by simpa [truthyStr] using hs
    by_cases he : e = some true <;> cases hms : truthyInt ms <;>
      (simp [jobBuild, addClause, ht, hms, he]; rfl)

/-- Witness for C10 at name "tech" and title "eng". -/
theorem filter_substring_binding_witness :
    (∃ restM restV, companyBuild ⟨some "tech", none, none⟩ =
      ("name ILIKE $1" :: restM, QVal.vstr ("%" ++ "tech" ++ "%") :: restV))
    ∧ (∃ restM restV, jobBuild ⟨some "eng", none, none⟩ =
      ("title ILIKE $1" :: restM, QVal.vstr ("%" ++ "eng" ++ "%") :: restV)) :=
  ⟨filter_substring_binding.1 ⟨some "tech", none, none⟩ "tech" rfl (by decide),
   filter_substring_binding.2.1 ⟨some "eng", none, none⟩ "eng" rfl (by decide)⟩

/-- C6: a supplied job minSalary emits the strict predicate `salary > $k`
(bound to the raw minSalary value at position k of the value list), concretely
`salary > $1` bound to 40000 for `filter(minSalary:40000)`, while the company
bounds minEmployees and maxEmployees emit the inclusive `num_employees >= $k`
and `num_employees <= $k`. -/
theorem filter_bound_predicates :
    (∀ q : JobQuery, truthyInt q.minSalary = true →
      ∃ k, ("salary > $" ++ toString k) ∈ (jobBuild q).1 ∧
        (jobBuild q).2.get? (k - 1) = some (QVal.vint (q.minSalary.getD 0)))
    ∧ jobBuild ⟨none, some 40000, none⟩ = (["salary > $1"], [QVal.vint 40000])
    ∧ (∀ q : CompanyQuery, truthyInt q.minEmployees = true →
      ∃ k, ("num_employees >= $" ++ toString k) ∈ (companyBuild q).1 ∧
        (companyBuild q).2.get? (k - 1) = some (QVal.vint (q.minEmployees.getD 0)))
    ∧ (∀ q : CompanyQuery, truthyInt q.maxEmployees = true →
      ∃ k, ("num_employees <= $" ++ toString k) ∈ (companyBuild q).1 ∧
        (companyBuild q).2.get? (k - 1) = some (QVal.vint (q.maxEmployees.getD 0))) := by
  refine ⟨?_, by decide, ?_, ?_⟩
  · rintro ⟨t, ms, e⟩ h
    simp only at h
    by_cases he : e = some true <;> cases ht : truthyStr t
    · exact ⟨1, by simp [jobBuild, addClause, ht, h, he]⟩
    · exact ⟨2, by simp [jobBuild, addClause, ht, h, he]⟩
    · exact ⟨1, by simp [jobBuild, addClause, ht, h, he]⟩
    · exact ⟨2, by simp [jobBuild, addClause, ht, h, he]⟩
  · rintro ⟨n, mn, mx⟩ h
    simp only at h
    cases hn : truthyStr n <;> cases hmx : truthyInt mx
    · exact ⟨1, by simp [companyBuild, addClause, hn, h, hmx]⟩
    · exact ⟨1, by simp [companyBuild, addClause, hn, h, hmx]⟩
    · exact ⟨2, by simp [companyBuild, addClause, hn, h, hmx]⟩
    · exact ⟨2, by simp [companyBuild, addClause, hn, h, hmx]⟩
  · rintro ⟨n, mn, mx⟩ h
    simp only at h
    cases hn : truthyStr n <;> cases hmn : truthyInt mn
    · exact ⟨1, by simp [companyBuild, addClause, hn, h, hmn]⟩
    · exact ⟨2, by simp [companyBuild, addClause, hn, h, hmn]⟩
    · exact ⟨2, by simp [companyBuild, addClause, hn, h, hmn]⟩
    · exact ⟨3, by simp [companyBuild, addClause, hn, h, hmn]⟩

/-- Witness for C6 at minSalary 40000 and employee bounds 3 and 7. -/
theorem filter_bound_predicates_witness :
    (∃ k, ("salary > $" ++ toString k) ∈ (jobBuild ⟨none, some 40000, none⟩).1 ∧
      (jobBuild ⟨none, some 40000, none⟩).2.get? (k - 1) =
        some (QVal.vint ((some (40000 : Int)).getD 0)))
    ∧ (∃ k, ("num_employees >= $" ++ toString k) ∈
        (companyBuild ⟨none, some 3, some 7⟩).1 ∧
      (companyBuild ⟨none, some 3, some 7⟩).2.get? (k - 1) =
        some (QVal.vint ((some (3 : Int)).getD 0)))
    ∧ (∃ k, ("num_employees <= $" ++ toString k) ∈
        (companyBuild ⟨none, some 3, some 7⟩).1 ∧
      (companyBuild ⟨none, some 3, some 7⟩).2.get? (k - 1) =
        some (QVal.vint ((some (7 : Int)).getD 0))) :=
  ⟨filter_bound_predicates.1 ⟨none, some 40000, none⟩ (by decide),
   filter_bound_predicates.2.2.1 ⟨none, some 3, some 7⟩ (by decide),
   filter_bound_predicates.2.2.2 ⟨none, some 3, some 7⟩ (by decide)⟩

/-- Helper: every SET fragment ends with the placeholder for its own 1-based
position — the fragment for 0-based index `i` ends in the characters `$` and
the decimal rendering of `i + 1`, after the closing identifier quote. -/
theorem colFragment_endsWith (M : List (String × String)) (c : String) (i : Nat) :
    endsWithPlaceholder (colFragment M c i) (i + 1) := by
  refine ⟨'"' :: (jsOr (lookupMap M c) c).data ++ ['"', '='], ?_⟩
  simp [colFragment, String.data_append]

/-- C1: placeholder/value alignment. For sqlForPartialUpdate, the returned
values are exactly the payload's values in insertion order, there are as many
SET fragments as payload keys, and the fragment at 0-based position i ends
with placeholder index i+1 — so the placeholder indices are exactly 1..|P|,
contiguous, one per fragment, with $N naming position N of the values. For
the two filter builders, the placeholder indices extracted from the emitted
fragments (in emission order) are exactly 1..len(values): each value-bearing
fragment references the length the value list had immediately after its value
was pushed. -/
theorem placeholder_value_alignment :
    (∀ (α : Type) (P : List (String × α)) (M : List (String × String)), P ≠ [] →
      sqlForPartialUpdate P M =
        .ok (String.intercalate ", " (sqlCols P M), P.map Prod.snd)
      ∧ (sqlCols P M).length = P.length
      ∧ ∀ (i : Nat) (hi : i < (sqlCols P M).length),
          endsWithPlaceholder ((sqlCols P M).get ⟨i, hi⟩) (i + 1))
    ∧ (∀ q : CompanyQuery,
        (companyBuild q).1.filterMap lastPlaceholder =
          List.range' 1 (companyBuild q).2.length)
    ∧ (∀ q : JobQuery,
        (jobBuild q).1.filterMap lastPlaceholder =
          List.range' 1 (jobBuild q).2.length) := by
  refine ⟨?_, ?_, ?_⟩
  · intro α P M hP
    refine ⟨?_, by simp [sqlCols], ?_⟩
    · unfold sqlForPartialUpdate
      rw [if_neg]
      simpa [length_eq_zero_iff_nil] using hP
    · intro i hi
      have hg : (sqlCols P M).get ⟨i, hi⟩ =
          colFragment M (P.get ⟨i, by simpa [sqlCols] using hi⟩).1 i := by
        simp [sqlCols, List.getElem_mapIdx]
      rw [hg]
      exact colFragment_endsWith M _ i
  · rintro ⟨n, mn, mx⟩
    cases hn : truthyStr n <;> cases hmn : truthyInt mn <;> cases hmx : truthyInt mx <;>
      simp [companyBuild, addClause, hn, hmn, hmx] <;> rfl
  · rintro ⟨t, ms, e⟩
    by_cases he : e = some true <;> cases ht : truthyStr t <;> cases hms : truthyInt ms <;>
      simp [jobBuild, addClause, ht, hms, he] <;> rfl

/-- Witness for C1 at the two-field payload of the repository's own test. -/
theorem placeholder_value_alignment_witness :
    ([("firstName", "test"), ("age", "30")] : List (String × String)) ≠ []
    ∧ sqlForPartialUpdate [("firstName", "test"), ("age", "30")]
        [("firstName", "first_name")] =
        .ok ("\"first_name\"=$1, \"age\"=$2", ["test", "30"]) := by
  have h := placeholder_value_alignment.1 String
    [("firstName", "test"), ("age", "30")] [("firstName", "first_name")] (by decide)
  refine ⟨by decide, ?_⟩
  rw [h.1]
  rfl

/-- C9 counterexample: with the payload key "a" present in the field-name map
but mapped to the empty string, the emitted fragment quotes the logical key
("a"), not the mapped physical name (""): the JS fallback
`jsToSql[colName] || colName` triggers on any falsy mapped value, not only on
an absent key, so the claim's present-in-M case predicts setCols to be the
string quoting "" while the code returns the string quoting "a". -/
theorem sqlForPartialUpdate_empty_mapping_cex :
    sqlForPartialUpdate [("a", "x")] [("a", "")] = .ok ("\"a\"=$1", ["x"])
    ∧ ("\"a\"=$1" : String) ≠ "\"\"=$1" :=
  ⟨rfl, by decide⟩

/-- C9 (amended): the fragment for the key at 0-based position i is
`"<physical>"=$(i+1)` joined with `, `, where the physical name is M[k] when k
maps in M to a non-empty string, and is k itself verbatim when k is absent
from M or maps to the empty string (the JS truthiness fallback); concretely,
a mapped key emits the mapped snake-case name and an unmapped key passes
through verbatim. -/
theorem sqlForPartialUpdate_column_translation :
    (∀ (α : Type) (P : List (String × α)) (M : List (String × String))
       (i : Nat) (kv : String × α), P.get? i = some kv →
      (∀ v, lookupMap M kv.1 = some v → v ≠ "" →
        (sqlCols P M).get? i = some ("\"" ++ v ++ "\"=$" ++ toString (i + 1)))
      ∧ (lookupMap M kv.1 = none →
        (sqlCols P M).get? i = some ("\"" ++ kv.1 ++ "\"=$" ++ toString (i + 1)))
      ∧ (lookupMap M kv.1 = some "" →
        (sqlCols P M).get? i = some ("\"" ++ kv.1 ++ "\"=$" ++ toString (i + 1))))
    ∧ sqlForPartialUpdate [("firstName", "x")] [("firstName", "first_name")] =
        .ok ("\"first_name\"=$1", ["x"])
    ∧ sqlForPartialUpdate [("age", (5 : Int))] [("firstName", "first_name")] =
        .ok ("\"age\"=$1", [5]) := by
  refine ⟨?_, rfl, rfl⟩
  intro α P M i kv hkv
  obtain ⟨hi, hget⟩ := List.get?_eq_some.mp hkv
  have hl : i < (sqlCols P M).length := by simpa [sqlCols] using hi
  have hge : P[i] = kv := by simpa [List.get_eq_getElem] using hget
  have hcols : (sqlCols P M).get? i = some (colFragment M kv.1 i) := by
    rw [List.get?_eq_get hl]
    simp [sqlCols, List.getElem_mapIdx, hge]
  refine ⟨?_, ?_, ?_⟩
  · intro v hv hne
    rw [hcols]
    simp [colFragment, jsOr, hv, hne]
  · intro hv
    rw [hcols]
    simp [colFragment, jsOr, hv]
  · intro hv
    rw [hcols]
    simp [colFragment, jsOr, hv]

/-- Witness for C9's amended theorem at the spec's own mapped-key example. -/
theorem sqlForPartialUpdate_column_translation_witness :
    (sqlCols [("firstName", "x")] [("firstName", "first_name")]).get? 0 =
      some ("\"" ++ "first_name" ++ "\"=$" ++ toString (0 + 1)) :=
  (sqlForPartialUpdate_column_translation.1 String [("firstName", "x")]
    [("firstName", "first_name")] 0 ("firstName", "x") rfl).1 "first_name" rfl
    (by decide)

end Jobly
